import Mathlib

/-!
Shallow embedding of `RepublicSurpriseContract` (the complete draft with roles,
blind-box individual/set pricing, cart, delivery logging and refund tickets,
`src/unnamed/part_000` lines 1-849).

Modelling conventions:
* `address` is modelled as `Nat` (`Addr`); `address(0)` is `0`.
* Solidity mappings are total functions with the zero-value default, exactly as
  in the EVM storage model (e.g. a missing product is the all-zero `Product`).
* `uint256` is modelled as `Nat`.  Solidity 0.8 checked arithmetic reverts on
  overflow; the two places where an overflow is reachable without an
  astronomical number of prior transactions (`unit * qty` in `buy`, and
  `++orderCount` after `paywithMetamask` has jumped `orderCount` to a
  caller-chosen value) carry an explicit guard throwing the arithmetic panic.
  Counters that only ever grow by one per transaction (`productCount`,
  `refundCount`, `nextUserOrderId`) are modelled unbounded.
* Every external function becomes
  `args -> ContractState -> Except String (ContractState x ret)`; `require`
  failures are `.error msg` with the source's message string, and transaction
  semantics (`applyTx`) commit the new state only on success, mirroring the
  EVM's revert-on-failure.
* `msg.sender`, `msg.value` and `block.timestamp` are explicit parameters
  (`sender`, `value`, `now`).  The external payout call in `payRefund` /
  `claimRefund` is a parameter `transfer : ContractState -> Bool` which is
  consulted at the state current at the moment of the call (so the model shows
  which writes precede the external call).
-/

namespace RepublicSurprise

abbrev Addr := Nat

/-- Pointwise map update, the shallow embedding of a Solidity mapping write. -/
def fupd {α β : Type} [DecidableEq α] (f : α → β) (k : α) (v : β) : α → β :=
  fun i => if i = k then v else f i

/-- `2 ^ 256`, the modulus of `uint256`; Solidity 0.8 reverts when a checked
operation would reach it. -/
def UMAX : Nat := 2 ^ 256

inductive Role where
  | None
  | Buyer
  | Delivery
  | Admin
  | Seller
  deriving DecidableEq

inductive ProductStatus where
  | Active
  | Inactive
  deriving DecidableEq

/-- `RepublicSurpriseStatus` in the source (legacy inventory status). -/
inductive RepublicSurpriseStatus where
  | InStock
  | OutOfStock
  deriving DecidableEq

inductive OrderStatus where
  | Pending
  | Paid
  | OutForDelivery
  | PendingConfirmation
  | Completed
  | Refunded
  | Cancelled
  deriving DecidableEq

inductive UserOrderStatus where
  | Placed
  | Paid
  | Shipped
  | Delivered
  | Completed
  | Cancelled
  deriving DecidableEq

inductive RefundType where
  | None
  | Full
  | Partial
  deriving DecidableEq

inductive RefundStatus where
  | Open
  | Approved
  | Rejected
  | Paid
  deriving DecidableEq

structure Product where
  id : Nat
  name : String
  description : String
  priceWei : Nat
  status : ProductStatus
  enableIndividual : Bool
  enableSet : Bool
  individualPriceWei : Nat
  individualStock : Nat
  setPriceWei : Nat
  setStock : Nat
  setBoxes : Nat
  deriving DecidableEq

/-- `UserProfile`; the source field `exists` is a Lean keyword, renamed
`existsFlag`.  `bytes32 profileHash` is modelled as `Nat`. -/
structure UserProfile where
  existsFlag : Bool
  active : Bool
  profileHash : Nat
  deriving DecidableEq

structure CartItem where
  productId : Nat
  quantity : Nat
  isSet : Bool
  deriving DecidableEq

structure Order where
  id : Nat
  buyer : Addr
  productId : Nat
  isSet : Bool
  qty : Nat
  paid : Nat
  status : OrderStatus
  deliveryId : String
  proofImage : String
  deriving DecidableEq

structure DeliveryLog where
  status : OrderStatus
  note : String
  proofImage : String
  timestamp : Nat
  actor : Addr
  deriving DecidableEq

structure UserOrder where
  id : Nat
  buyer : Addr
  totalAmount : Nat
  status : UserOrderStatus
  createdAt : Nat
  deriving DecidableEq

structure RefundTicket where
  id : Nat
  orderId : Nat
  requester : Addr
  rType : RefundType
  amount : Nat
  status : RefundStatus
  deriving DecidableEq

structure Payment where
  buyer : Addr
  amountPaid : Nat
  refundApproved : Nat
  refundClaimed : Bool
  deriving DecidableEq

/-- Zero value of a `Product` slot (EVM storage default). -/
def defaultProduct : Product :=
  ⟨0, "", "", 0, ProductStatus.Active, false, false, 0, 0, 0, 0, 0⟩

def defaultOrder : Order :=
  ⟨0, 0, 0, false, 0, 0, OrderStatus.Pending, "", ""⟩

def defaultUserOrder : UserOrder :=
  ⟨0, 0, 0, UserOrderStatus.Placed, 0⟩

def defaultTicket : RefundTicket :=
  ⟨0, 0, 0, RefundType.None, 0, RefundStatus.Open⟩

def defaultPayment : Payment :=
  ⟨0, 0, 0, false⟩

def defaultProfile : UserProfile :=
  ⟨false, false, 0⟩

/-- The whole storage of `RepublicSurpriseContract`. -/
structure ContractState where
  owner : Addr
  admin : Addr
  admins : Addr → Bool
  deliveryMen : Addr → Bool
  roles : Addr → Role
  companyName : String
  productCount : Nat
  republicSurpriseCount : Nat
  products : Nat → Product
  productInventoryStatus : Nat → RepublicSurpriseStatus
  users : Addr → UserProfile
  carts : Addr → List CartItem
  orderCount : Nat
  orders : Nat → Order
  orderDeliveryMan : Nat → Addr
  ordersByDeliveryMan : Addr → List Nat
  deliveryLogs : Nat → List DeliveryLog
  nextUserOrderId : Nat
  userOrders : Nat → UserOrder
  userOrdersByUser : Addr → List Nat
  refundCount : Nat
  refunds : Nat → RefundTicket
  payments : Nat → Payment

/-- The constructor: deployer becomes owner/admin with role `Seller`. -/
def initState (deployer : Addr) : ContractState where
  owner := deployer
  admin := deployer
  admins := fupd (fun _ => false) deployer true
  deliveryMen := fun _ => false
  roles := fupd (fun _ => Role.None) deployer Role.Seller
  companyName := "Republic Surprise Shop"
  productCount := 0
  republicSurpriseCount := 0
  products := fun _ => defaultProduct
  productInventoryStatus := fun _ => RepublicSurpriseStatus.InStock
  users := fun _ => defaultProfile
  carts := fun _ => []
  orderCount := 0
  orders := fun _ => defaultOrder
  orderDeliveryMan := fun _ => 0
  ordersByDeliveryMan := fun _ => []
  deliveryLogs := fun _ => []
  nextUserOrderId := 0
  userOrders := fun _ => defaultUserOrder
  userOrdersByUser := fun _ => []
  refundCount := 0
  refunds := fun _ => defaultTicket
  payments := fun _ => defaultPayment

/-- Transaction semantics: a revert (`.error`) leaves the pre-state committed. -/
def applyTx {α : Type} (s : ContractState) (r : Except String (ContractState × α)) :
    ContractState :=
  match r with
  | .ok (s', _) => s'
  | .error _ => s

/-- The error message of a reverted call, `none` on success. -/
def errOf {α : Type} (r : Except String (ContractState × α)) : Option String :=
  match r with
  | .ok _ => none
  | .error e => some e

/-- Whether a call succeeded. -/
def isOk {α : Type} (r : Except String (ContractState × α)) : Bool :=
  match r with
  | .ok _ => true
  | .error _ => false

/-- Recipient and amount of the external payout performed by a successful
`payRefund` / `claimRefund`, `none` if the call reverted. -/
def payoutOf (r : Except String (ContractState × (Addr × Nat))) : Option (Addr × Nat) :=
  match r with
  | .ok (_, out) => some out
  | .error _ => none

-- ---------- Role management ----------

/-- `addAdmin` (source lines 59-64): owner-only; sets the admin flag and the
`Admin` role.  Note: it does not touch `deliveryMen`. -/
def addAdmin (sender account : Addr) (s : ContractState) :
    Except String (ContractState × Unit) :=
  if s.owner ≠ sender then .error "owner only" else
  .ok ({ s with admins := fupd s.admins account true
              , roles := fupd s.roles account Role.Admin }, ())

/-- `addDeliveryMan` (source lines 66-71): admin-only; sets the delivery flag
and the `Delivery` role.  Note: it does not touch `admins`. -/
def addDeliveryMan (sender account : Addr) (s : ContractState) :
    Except String (ContractState × Unit) :=
  if s.admins sender = false then .error "admin only" else
  .ok ({ s with deliveryMen := fupd s.deliveryMen account true
              , roles := fupd s.roles account Role.Delivery }, ())

/-- `assignRole` (source lines 81-97): admin-only, rejects the zero account,
and sets the two boolean flags consistently with the assigned role. -/
def assignRole (sender account : Addr) (role : Role) (s : ContractState) :
    Except String (ContractState × Unit) :=
  if s.admins sender = false then .error "admin only" else
  if account = 0 then .error "bad account" else
  let s1 :=
    if role = Role.Admin then
      { s with admins := fupd s.admins account true
             , deliveryMen := fupd s.deliveryMen account false }
    else if role = Role.Delivery then
      { s with deliveryMen := fupd s.deliveryMen account true
             , admins := fupd s.admins account false }
    else if role = Role.Buyer then
      { s with admins := fupd s.admins account false
             , deliveryMen := fupd s.deliveryMen account false }
    else s
  .ok ({ s1 with roles := fupd s1.roles account role }, ())

-- ---------- Product catalog ----------

/-- `_validateBlindBoxConfig` (source lines 148-178). -/
def validateBlindBoxConfig (enableIndividual enableSet : Bool)
    (individualPriceWei individualStock setPriceWei setStock setBoxes : Nat) :
    Except String Unit :=
  if (enableIndividual || enableSet) = false then
    .error "Select at least one purchase type" else
  if enableIndividual = true ∧ individualPriceWei = 0 then
    .error "Individual price required" else
  if enableIndividual = false ∧ individualPriceWei ≠ 0 then
    .error "Individual price must be 0" else
  if enableIndividual = false ∧ individualStock ≠ 0 then
    .error "Individual stock must be 0" else
  if enableSet = true ∧ setPriceWei = 0 then
    .error "Set price required" else
  if enableSet = true ∧ setBoxes = 0 then
    .error "Set boxes required" else
  if enableSet = false ∧ setPriceWei ≠ 0 then
    .error "Set price must be 0" else
  if enableSet = false ∧ setStock ≠ 0 then
    .error "Set stock must be 0" else
  if enableSet = false ∧ setBoxes ≠ 0 then
    .error "Set boxes must be 0" else
  .ok ()

/-- `_updateInventoryStatus` (source lines 180-189): recompute the cached
aggregate in-stock flag of product `id` from the per-mode stock counters. -/
def updateInventoryStatus (id : Nat) (s : ContractState) : ContractState :=
  let p := s.products id
  let hasStock :=
    (p.enableIndividual && decide (0 < p.individualStock)) ||
    (p.enableSet && decide (0 < p.setStock))
  let inv := if hasStock then RepublicSurpriseStatus.InStock else RepublicSurpriseStatus.OutOfStock
  { s with productInventoryStatus := fupd s.productInventoryStatus id inv }

/-- `addProduct` (source lines 192-243): admin-only; the product id is supplied
by the caller and merely checked to be an unused slot (`products[id].id == 0`).
-/
def addProduct (sender id : Nat) (name description : String) (priceWei : Nat)
    (enableIndividual enableSet : Bool)
    (individualPriceWei individualStock setPriceWei setStock setBoxes : Nat)
    (s : ContractState) : Except String (ContractState × Unit) :=
  if s.admins sender = false then .error "admin only" else
  if (s.products id).id ≠ 0 then .error "Product exists" else
  if name.length = 0 then .error "name required" else
  match validateBlindBoxConfig enableIndividual enableSet
      individualPriceWei individualStock setPriceWei setStock setBoxes with
  | .error e => .error e
  | .ok _ =>
    let p : Product :=
      ⟨id, name, description, priceWei, ProductStatus.Active,
        enableIndividual, enableSet, individualPriceWei, individualStock,
        setPriceWei, setStock, setBoxes⟩
    let s1 := { s with products := fupd s.products id p
                     , productCount := s.productCount + 1
                     , republicSurpriseCount := s.productCount + 1 }
    .ok (updateInventoryStatus id s1, ())

/-- `deactivateProduct` (source lines 245-251). -/
def deactivateProduct (sender id : Nat) (s : ContractState) :
    Except String (ContractState × Unit) :=
  if s.admins sender = false then .error "admin only" else
  if (s.products id).id = 0 then .error "Product not found" else
  let p1 := { (s.products id) with status := ProductStatus.Inactive }
  .ok ({ s with products := fupd s.products id p1 }, ())

/-- `reactivateProduct` (source lines 253-259). -/
def reactivateProduct (sender id : Nat) (s : ContractState) :
    Except String (ContractState × Unit) :=
  if s.admins sender = false then .error "admin only" else
  if (s.products id).id = 0 then .error "Product not found" else
  let p1 := { (s.products id) with status := ProductStatus.Active }
  .ok ({ s with products := fupd s.products id p1 }, ())

-- ---------- Users ----------

/-- `registerUser` (source lines 275-284): admin-only; flags untouched, the
role is set to `Buyer` only when it was still `None`. -/
def registerUser (sender user : Addr) (profileHash : Nat) (s : ContractState) :
    Except String (ContractState × Unit) :=
  if s.admins sender = false then .error "admin only" else
  if (s.users user).existsFlag = true then .error "User exists" else
  let s1 := { s with users := fupd s.users user ⟨true, true, profileHash⟩ }
  if s.roles user = Role.None then
    .ok ({ s1 with roles := fupd s1.roles user Role.Buyer }, ())
  else
    .ok (s1, ())

/-- `updateUserProfile` (source lines 286-292). -/
def updateUserProfile (sender user : Addr) (profileHash : Nat) (s : ContractState) :
    Except String (ContractState × Unit) :=
  if sender ≠ user then .error "user only" else
  if (s.users user).existsFlag = false then .error "User not found" else
  .ok ({ s with users := fupd s.users user { (s.users user) with profileHash := profileHash } }, ())

/-- `deactivateUser` (source lines 294-299). -/
def deactivateUser (sender user : Addr) (s : ContractState) :
    Except String (ContractState × Unit) :=
  if s.admins sender = false then .error "admin only" else
  if (s.users user).existsFlag = false then .error "User not found" else
  .ok ({ s with users := fupd s.users user { (s.users user) with active := false } }, ())

/-- `reactivateUser` (source lines 301-306). -/
def reactivateUser (sender user : Addr) (s : ContractState) :
    Except String (ContractState × Unit) :=
  if s.admins sender = false then .error "admin only" else
  if (s.users user).existsFlag = false then .error "User not found" else
  .ok ({ s with users := fupd s.users user { (s.users user) with active := true } }, ())

-- ---------- Cart ----------

/-- `addToCartV2` (source lines 338-348). -/
def addToCartV2 (sender productId quantity : Nat) (isSet : Bool) (s : ContractState) :
    Except String (ContractState × Unit) :=
  if quantity = 0 then .error "quantity must be > 0" else
  if (s.products productId).id = 0 then .error "product not found" else
  if (s.products productId).status ≠ ProductStatus.Active then .error "inactive product" else
  if (if isSet then (s.products productId).enableSet
      else (s.products productId).enableIndividual) = false then
    .error "mode disabled" else
  let c1 := s.carts sender ++ [⟨productId, quantity, isSet⟩]
  .ok ({ s with carts := fupd s.carts sender c1 }, ())

/-- `addToCart` (source lines 333-336): legacy wrapper, individual mode. -/
def addToCart (sender productId quantity : Nat) (s : ContractState) :
    Except String (ContractState × Unit) :=
  addToCartV2 sender productId quantity false s

/-- `removeFromCart` (source lines 350-357): swap-and-pop by index. -/
def removeFromCart (sender index : Nat) (s : ContractState) :
    Except String (ContractState × Unit) :=
  let cart := s.carts sender
  if cart.length ≤ index then .error "bad index" else
  let c1 := (cart.set index (cart.getD (cart.length - 1) ⟨0, 0, false⟩)).dropLast
  .ok ({ s with carts := fupd s.carts sender c1 }, ())

/-- `clearCart` (source lines 359-362). -/
def clearCart (sender : Addr) (s : ContractState) :
    Except String (ContractState × Unit) :=
  .ok ({ s with carts := fupd s.carts sender [] }, ())

-- ---------- Orders / Delivery ----------

/-- `_logDelivery` (source lines 439-455): append one entry to the order's
delivery log. -/
def logDelivery (orderId : Nat) (status : OrderStatus) (note proofImage : String)
    (now : Nat) (actor : Addr) (s : ContractState) : ContractState :=
  let l1 := s.deliveryLogs orderId ++ [⟨status, note, proofImage, now, actor⟩]
  { s with deliveryLogs := fupd s.deliveryLogs orderId l1 }

/-- `productPrice` (source lines 457-462). -/
def productPrice (productId : Nat) (isSet : Bool) (qty : Nat) (s : ContractState) :
    Except String Nat :=
  let unit := if isSet then (s.products productId).setPriceWei
              else (s.products productId).individualPriceWei
  if unit = 0 then .error "price missing" else
  if UMAX ≤ unit * qty then .error "panic: arithmetic overflow" else
  .ok (unit * qty)

/-- The ternary `isSet ? p.enableSet : p.enableIndividual` of the source. -/
def modeEnabled (p : Product) (isSet : Bool) : Bool :=
  if isSet then p.enableSet else p.enableIndividual

/-- The ternary `isSet ? p.setStock : p.individualStock` of the source. -/
def modeStock (p : Product) (isSet : Bool) : Nat :=
  if isSet then p.setStock else p.individualStock

/-- The ternary `isSet ? p.setPriceWei : p.individualPriceWei` of the source
(`unit` in `buy` / `productPrice`; no legacy fallback there). -/
def unitPrice (p : Product) (isSet : Bool) : Nat :=
  if isSet then p.setPriceWei else p.individualPriceWei

/-- The post-state of a successful `buy` (source lines 488-508): debit the
requested mode's stock, recompute the cached inventory status, allocate the
next order id, record the order as `Paid` and append the `"ORDER_PAID"`
delivery-log entry. -/
def buySuccState (sender value now productId : Nat) (isSet : Bool) (qty : Nat)
    (deliveryId : String) (s : ContractState) : ContractState :=
  let p := s.products productId
  let p1 := if isSet then { p with setStock := p.setStock - qty }
            else { p with individualStock := p.individualStock - qty }
  let s1 := updateInventoryStatus productId { s with products := fupd s.products productId p1 }
  let orderId := s.orderCount + 1
  let o : Order := ⟨orderId, sender, productId, isSet, qty, value, OrderStatus.Paid, deliveryId, ""⟩
  logDelivery orderId OrderStatus.Paid "ORDER_PAID" "" now sender
    { s1 with orderCount := orderId, orders := fupd s1.orders orderId o }

/-- `buy` (source lines 464-509): the core transactional purchase operation.
The guards are in the source's `require` order; the two `panic` guards model
Solidity 0.8 checked arithmetic on `unit * qty` and `++orderCount`. -/
def buy (sender value now productId : Nat) (isSet : Bool) (qty : Nat)
    (deliveryId : String) (s : ContractState) : Except String (ContractState × Nat) :=
  if qty = 0 then .error "qty > 0" else
  if (s.products productId).id = 0 then .error "product not found" else
  if (s.products productId).status ≠ ProductStatus.Active then .error "inactive product" else
  if modeEnabled (s.products productId) isSet = false then .error "mode disabled" else
  if modeStock (s.products productId) isSet < qty then
    .error (if isSet then "insufficient set stock" else "insufficient box stock") else
  if unitPrice (s.products productId) isSet = 0 then .error "price missing" else
  if UMAX ≤ unitPrice (s.products productId) isSet * qty then
    .error "panic: arithmetic overflow" else
  if value ≠ unitPrice (s.products productId) isSet * qty then .error "wrong payment" else
  if UMAX ≤ s.orderCount + 1 then .error "panic: arithmetic overflow" else
  .ok (buySuccState sender value now productId isSet qty deliveryId s, s.orderCount + 1)

/-- `markOutForDelivery` (source lines 511-521). -/
def markOutForDelivery (sender now orderId : Nat) (deliveryId : String) (s : ContractState) :
    Except String (ContractState × Unit) :=
  if s.admins sender = false then .error "admin only" else
  if (s.orders orderId).id = 0 then .error "order not found" else
  if (s.orders orderId).status ≠ OrderStatus.Paid then .error "not paid" else
  let o1 := { (s.orders orderId) with status := OrderStatus.OutForDelivery, deliveryId := deliveryId }
  let s1 := { s with orders := fupd s.orders orderId o1 }
  .ok (logDelivery orderId OrderStatus.OutForDelivery "OUT_FOR_DELIVERY" "" now sender s1, ())

/-- `submitProof` (source lines 524-534): delivery-man-or-admin. -/
def submitProof (sender now orderId : Nat) (proofImage : String) (s : ContractState) :
    Except String (ContractState × Unit) :=
  if (s.deliveryMen sender || s.admins sender) = false then .error "delivery/admin only" else
  if (s.orders orderId).id = 0 then .error "order not found" else
  if (s.orders orderId).status ≠ OrderStatus.OutForDelivery then .error "wrong state" else
  let o1 := { (s.orders orderId) with proofImage := proofImage
                                    , status := OrderStatus.PendingConfirmation }
  let s1 := { s with orders := fupd s.orders orderId o1 }
  .ok (logDelivery orderId OrderStatus.PendingConfirmation "PROOF_SUBMITTED" proofImage now sender s1, ())

/-- `confirmDelivery` (source lines 536-544): admin-only. -/
def confirmDelivery (sender now orderId : Nat) (s : ContractState) :
    Except String (ContractState × Unit) :=
  if s.admins sender = false then .error "admin only" else
  if (s.orders orderId).id = 0 then .error "order not found" else
  if (s.orders orderId).status ≠ OrderStatus.PendingConfirmation then .error "wrong state" else
  let o1 := { (s.orders orderId) with status := OrderStatus.Completed }
  let s1 := { s with orders := fupd s.orders orderId o1 }
  .ok (logDelivery orderId OrderStatus.Completed "DELIVERY_CONFIRMED" (s.orders orderId).proofImage now sender s1, ())

/-- `assignDeliveryManToOrder` (source lines 546-554). -/
def assignDeliveryManToOrder (sender orderId : Nat) (deliveryMan : Addr) (s : ContractState) :
    Except String (ContractState × Unit) :=
  if s.admins sender = false then .error "admin only" else
  if s.deliveryMen deliveryMan = false then .error "not delivery" else
  if (s.orders orderId).id = 0 then .error "order not found" else
  let l1 := s.ordersByDeliveryMan deliveryMan ++ [orderId]
  .ok ({ s with orderDeliveryMan := fupd s.orderDeliveryMan orderId deliveryMan
              , ordersByDeliveryMan := fupd s.ordersByDeliveryMan deliveryMan l1 }, ())

/-- `_setDeliveryStatus` (source lines 574-598): non-admin callers may only set
`OutForDelivery` or `PendingConfirmation`; updates the proof image only when a
non-empty one is supplied. -/
def setDeliveryStatus (sender now orderId : Nat) (status : OrderStatus)
    (note proofImage : String) (s : ContractState) :
    Except String (ContractState × Unit) :=
  if (s.orders orderId).id = 0 then .error "order not found" else
  if s.admins sender = false ∧
      ¬(status = OrderStatus.OutForDelivery ∨ status = OrderStatus.PendingConfirmation) then
    .error "admin only status" else
  let o := s.orders orderId
  let img := if proofImage.length ≠ 0 then proofImage else o.proofImage
  let s1 := { s with orders := fupd s.orders orderId { o with status := status, proofImage := img } }
  .ok (logDelivery orderId status note proofImage now sender s1, ())

/-- `deliveryAddStatus` (source lines 556-563): delivery-man-or-admin wrapper. -/
def deliveryAddStatus (sender now orderId : Nat) (status : OrderStatus)
    (note proofImage : String) (s : ContractState) :
    Except String (ContractState × Unit) :=
  if (s.deliveryMen sender || s.admins sender) = false then .error "delivery/admin only" else
  setDeliveryStatus sender now orderId status note proofImage s

/-- `deliveryUpdateStatus` (source lines 565-572): same body as
`deliveryAddStatus`. -/
def deliveryUpdateStatus (sender now orderId : Nat) (status : OrderStatus)
    (note proofImage : String) (s : ContractState) :
    Except String (ContractState × Unit) :=
  if (s.deliveryMen sender || s.admins sender) = false then .error "delivery/admin only" else
  setDeliveryStatus sender now orderId status note proofImage s

-- ---------- User order tracking (legacy) ----------

/-- `createUserOrder` (source lines 637-651). -/
def createUserOrder (sender now totalAmount : Nat) (s : ContractState) :
    Except String (ContractState × Nat) :=
  let id := s.nextUserOrderId
  let o : UserOrder := ⟨id, sender, totalAmount, UserOrderStatus.Placed, now⟩
  let l1 := s.userOrdersByUser sender ++ [id]
  .ok ({ s with nextUserOrderId := id + 1
              , userOrders := fupd s.userOrders id o
              , userOrdersByUser := fupd s.userOrdersByUser sender l1 }, id)

/-- `updateUserOrderStatus` (source lines 653-658). -/
def updateUserOrderStatus (sender id : Nat) (status : UserOrderStatus) (s : ContractState) :
    Except String (ContractState × Unit) :=
  if s.admins sender = false then .error "admin only" else
  if (s.userOrders id).buyer = 0 then .error "order not found" else
  let o1 := { (s.userOrders id) with status := status }
  .ok ({ s with userOrders := fupd s.userOrders id o1 }, ())

-- ---------- Refund tickets ----------

/-- `openRefund` (source lines 690-711): buyer-only, order must be `Completed`
or `PendingConfirmation`, type not `None`, `0 < amount <= order.paid`. -/
def openRefund (sender orderId : Nat) (rType : RefundType) (amount : Nat)
    (s : ContractState) : Except String (ContractState × Nat) :=
  if (s.orders orderId).buyer ≠ sender then .error "not buyer" else
  if ¬((s.orders orderId).status = OrderStatus.Completed ∨
       (s.orders orderId).status = OrderStatus.PendingConfirmation) then
    .error "not eligible" else
  if rType = RefundType.None then .error "invalid type" else
  if ¬(0 < amount ∧ amount ≤ (s.orders orderId).paid) then .error "bad amount" else
  let refundId := s.refundCount + 1
  let t : RefundTicket := ⟨refundId, orderId, sender, rType, amount, RefundStatus.Open⟩
  .ok ({ s with refundCount := refundId, refunds := fupd s.refunds refundId t }, refundId)

/-- `approveRefund` (source lines 713-719): admin-only, `Open -> Approved`. -/
def approveRefund (sender refundId : Nat) (s : ContractState) :
    Except String (ContractState × Unit) :=
  if s.admins sender = false then .error "admin only" else
  if (s.refunds refundId).id = 0 then .error "refund not found" else
  if (s.refunds refundId).status ≠ RefundStatus.Open then .error "not open" else
  let r1 := { (s.refunds refundId) with status := RefundStatus.Approved }
  .ok ({ s with refunds := fupd s.refunds refundId r1 }, ())

/-- The state-flip `payRefund` performs before its external payout call
(source lines 729-731): order `Refunded`, ticket `Paid`. -/
def payRefundFlip (refundId : Nat) (s : ContractState) : ContractState :=
  let r := s.refunds refundId
  let o1 := { (s.orders r.orderId) with status := OrderStatus.Refunded }
  let r1 := { r with status := RefundStatus.Paid }
  { s with orders := fupd s.orders r.orderId o1, refunds := fupd s.refunds refundId r1 }

/-- `payRefund` (source lines 721-738): admin-only, requires `Approved`; flips
the order/ticket state first and only then performs the external payout, whose
outcome is the oracle `transfer` consulted at the flipped state; a failed
payout reverts the whole call.  On success it returns the payout
`(recipient, amount)`. -/
def payRefund (transfer : ContractState → Bool) (sender refundId : Nat)
    (s : ContractState) : Except String (ContractState × (Addr × Nat)) :=
  if s.admins sender = false then .error "admin only" else
  if (s.refunds refundId).id = 0 then .error "refund not found" else
  if (s.refunds refundId).status ≠ RefundStatus.Approved then .error "not approved" else
  if (s.orders (s.refunds refundId).orderId).id = 0 then .error "order not found" else
  if transfer (payRefundFlip refundId s) = false then .error "refund failed" else
  .ok (payRefundFlip refundId s, ((s.refunds refundId).requester, (s.refunds refundId).amount))

-- ---------- Legacy payment refund style ----------

/-- The legacy unit price with fallback used by `paywithMetamask` (source
lines 765-766): `individualPriceWei`, falling back to `priceWei` when zero. -/
def legacyUnit (p : Product) : Nat :=
  if p.individualPriceWei = 0 then p.priceWei else p.individualPriceWei

/-- The post-state of a successful `paywithMetamask` (source lines 770-791):
debit one box, recompute inventory status, store a legacy `Payment`, create
the merged order under the caller-supplied id, and bump `orderCount` up to
that id. -/
def pmSuccState (sender value orderId productId : Nat) (s : ContractState) : ContractState :=
  let p := s.products productId
  let p1 := { p with individualStock := p.individualStock - 1 }
  let s1 := updateInventoryStatus productId { s with products := fupd s.products productId p1 }
  let o : Order := ⟨orderId, sender, productId, false, 1, value, OrderStatus.Paid, "", ""⟩
  { s1 with payments := fupd s1.payments orderId ⟨sender, value, 0, false⟩
          , orders := fupd s1.orders orderId o
          , orderCount := if s1.orderCount < orderId then orderId else s1.orderCount }

/-- `paywithMetamask` (source lines 755-795): one-unit individual purchase
keyed by a caller-supplied order id. -/
def paywithMetamask (sender value orderId productId : Nat) (s : ContractState) :
    Except String (ContractState × Unit) :=
  if value = 0 then .error "pay > 0" else
  if (s.orders orderId).id ≠ 0 then .error "order exists" else
  if (s.products productId).id = 0 then .error "product not found" else
  if (s.products productId).status ≠ ProductStatus.Active then .error "inactive product" else
  if (s.products productId).enableIndividual = false then .error "individual disabled" else
  if (s.products productId).individualStock < 1 then .error "insufficient stock" else
  if legacyUnit (s.products productId) = 0 then .error "price missing" else
  if value ≠ legacyUnit (s.products productId) then .error "incorrect amount" else
  .ok (pmSuccState sender value orderId productId s, ())

/-- `approvePartialRefund` (source lines 797-805). -/
def approvePartialRefund (sender orderId refundAmount : Nat) (s : ContractState) :
    Except String (ContractState × Unit) :=
  if s.admins sender = false then .error "admin only" else
  if (s.payments orderId).amountPaid = 0 then .error "no payment" else
  if ¬(0 < refundAmount ∧ refundAmount < (s.payments orderId).amountPaid) then
    .error "invalid refund" else
  if (s.payments orderId).refundClaimed = true then .error "refund claimed" else
  let p1 := { (s.payments orderId) with refundApproved := refundAmount }
  .ok ({ s with payments := fupd s.payments orderId p1 }, ())

/-- `approveFullRefund` (source lines 807-814). -/
def approveFullRefund (sender orderId : Nat) (s : ContractState) :
    Except String (ContractState × Unit) :=
  if s.admins sender = false then .error "admin only" else
  if (s.payments orderId).amountPaid = 0 then .error "no payment" else
  if (s.payments orderId).refundClaimed = true then .error "refund claimed" else
  let p1 := { (s.payments orderId) with refundApproved := (s.payments orderId).amountPaid }
  .ok ({ s with payments := fupd s.payments orderId p1 }, ())

/-- `claimRefund` (source lines 816-839): buyer-claimed legacy payout; marks
the payment claimed before the external call, then (after a successful
transfer) also flips an existing merged order to `Refunded`. -/
def claimRefund (transfer : ContractState → Bool) (sender orderId : Nat)
    (s : ContractState) : Except String (ContractState × (Addr × Nat)) :=
  let p := s.payments orderId
  if p.amountPaid = 0 then .error "no payment" else
  if p.refundApproved = 0 then .error "no refund" else
  if p.refundClaimed = true then .error "refund claimed" else
  if sender ≠ p.buyer then .error "not buyer" else
  let refundAmount := p.refundApproved
  let s1 := { s with payments := fupd s.payments orderId { p with refundClaimed := true, refundApproved := 0 } }
  if transfer s1 = false then .error "refund failed" else
  let o1 := { (s1.orders orderId) with status := OrderStatus.Refunded }
  let s2 := if (s1.orders orderId).id ≠ 0 then { s1 with orders := fupd s1.orders orderId o1 } else s1
  .ok (s2, (p.buyer, refundAmount))

-- ---------- Transaction traces ----------

/-- One external call to the contract, with its caller, attached value and
timestamp where relevant.  The external payout of `payRefund` / `claimRefund`
is summarised by the `transferOk` flag (the oracle's verdict). -/
inductive Op where
  | addAdmin (sender account : Addr)
  | addDeliveryMan (sender account : Addr)
  | assignRole (sender account : Addr) (role : Role)
  | registerUser (sender user : Addr) (profileHash : Nat)
  | updateUserProfile (sender user : Addr) (profileHash : Nat)
  | deactivateUser (sender user : Addr)
  | reactivateUser (sender user : Addr)
  | addProduct (sender id : Nat) (name description : String) (priceWei : Nat)
      (enableIndividual enableSet : Bool)
      (individualPriceWei individualStock setPriceWei setStock setBoxes : Nat)
  | deactivateProduct (sender id : Nat)
  | reactivateProduct (sender id : Nat)
  | addToCart (sender productId quantity : Nat)
  | addToCartV2 (sender productId quantity : Nat) (isSet : Bool)
  | removeFromCart (sender index : Nat)
  | clearCart (sender : Addr)
  | buy (sender value now productId : Nat) (isSet : Bool) (qty : Nat) (deliveryId : String)
  | markOutForDelivery (sender now orderId : Nat) (deliveryId : String)
  | submitProof (sender now orderId : Nat) (proofImage : String)
  | confirmDelivery (sender now orderId : Nat)
  | assignDeliveryManToOrder (sender orderId : Nat) (deliveryMan : Addr)
  | deliveryAddStatus (sender now orderId : Nat) (status : OrderStatus) (note proofImage : String)
  | deliveryUpdateStatus (sender now orderId : Nat) (status : OrderStatus) (note proofImage : String)
  | createUserOrder (sender now totalAmount : Nat)
  | updateUserOrderStatus (sender id : Nat) (status : UserOrderStatus)
  | openRefund (sender orderId : Nat) (rType : RefundType) (amount : Nat)
  | approveRefund (sender refundId : Nat)
  | payRefund (transferOk : Bool) (sender refundId : Nat)
  | paywithMetamask (sender value orderId productId : Nat)
  | approvePartialRefund (sender orderId refundAmount : Nat)
  | approveFullRefund (sender orderId : Nat)
  | claimRefund (transferOk : Bool) (sender orderId : Nat)

/-- Execute one call under transaction semantics: a revert commits nothing. -/
def execOp (s : ContractState) (op : Op) : ContractState :=
  match op with
  | .addAdmin sender account => applyTx s (addAdmin sender account s)
  | .addDeliveryMan sender account => applyTx s (addDeliveryMan sender account s)
  | .assignRole sender account role => applyTx s (assignRole sender account role s)
  | .registerUser sender user h => applyTx s (registerUser sender user h s)
  | .updateUserProfile sender user h => applyTx s (updateUserProfile sender user h s)
  | .deactivateUser sender user => applyTx s (deactivateUser sender user s)
  | .reactivateUser sender user => applyTx s (reactivateUser sender user s)
  | .addProduct sender id name description priceWei eI eS iP iStk sP sStk sB =>
      applyTx s (addProduct sender id name description priceWei eI eS iP iStk sP sStk sB s)
  | .deactivateProduct sender id => applyTx s (deactivateProduct sender id s)
  | .reactivateProduct sender id => applyTx s (reactivateProduct sender id s)
  | .addToCart sender productId quantity => applyTx s (addToCart sender productId quantity s)
  | .addToCartV2 sender productId quantity isSet =>
      applyTx s (addToCartV2 sender productId quantity isSet s)
  | .removeFromCart sender index => applyTx s (removeFromCart sender index s)
  | .clearCart sender => applyTx s (clearCart sender s)
  | .buy sender value now productId isSet qty deliveryId =>
      applyTx s (buy sender value now productId isSet qty deliveryId s)
  | .markOutForDelivery sender now orderId deliveryId =>
      applyTx s (markOutForDelivery sender now orderId deliveryId s)
  | .submitProof sender now orderId proofImage =>
      applyTx s (submitProof sender now orderId proofImage s)
  | .confirmDelivery sender now orderId => applyTx s (confirmDelivery sender now orderId s)
  | .assignDeliveryManToOrder sender orderId deliveryMan =>
      applyTx s (assignDeliveryManToOrder sender orderId deliveryMan s)
  | .deliveryAddStatus sender now orderId status note proofImage =>
      applyTx s (deliveryAddStatus sender now orderId status note proofImage s)
  | .deliveryUpdateStatus sender now orderId status note proofImage =>
      applyTx s (deliveryUpdateStatus sender now orderId status note proofImage s)
  | .createUserOrder sender now totalAmount => applyTx s (createUserOrder sender now totalAmount s)
  | .updateUserOrderStatus sender id status => applyTx s (updateUserOrderStatus sender id status s)
  | .openRefund sender orderId rType amount => applyTx s (openRefund sender orderId rType amount s)
  | .approveRefund sender refundId => applyTx s (approveRefund sender refundId s)
  | .payRefund transferOk sender refundId =>
      applyTx s (payRefund (fun _ => transferOk) sender refundId s)
  | .paywithMetamask sender value orderId productId =>
      applyTx s (paywithMetamask sender value orderId productId s)
  | .approvePartialRefund sender orderId refundAmount =>
      applyTx s (approvePartialRefund sender orderId refundAmount s)
  | .approveFullRefund sender orderId => applyTx s (approveFullRefund sender orderId s)
  | .claimRefund transferOk sender orderId =>
      applyTx s (claimRefund (fun _ => transferOk) sender orderId s)

/-- Execute a sequence of external calls. -/
def run (s : ContractState) (ops : List Op) : ContractState :=
  ops.foldl execOp s

-- ---------- Invariant predicates ----------

/-- The role-exclusivity invariant of the spec: no account carries the admin
flag and the delivery-man flag at the same time. -/
def RoleExclusive (s : ContractState) : Prop :=
  ∀ a, s.admins a = true → s.deliveryMen a = false

-- ---------- Concrete scenario states ----------

/-- Freshly deployed contract, deployer = account 1. -/
def csInit : ContractState := initState 1

/-- Admin 1 adds product 1: individual mode, price 5 wei, stock 5. -/
def csProd : ContractState :=
  execOp csInit (.addProduct 1 1 "box" "blind box" 0 true false 5 5 0 0 0)

/-- Admin 1 adds product 1: individual mode, price 5 wei, stock 0. -/
def csZeroStock : ContractState :=
  execOp csInit (.addProduct 1 1 "box" "blind box" 0 true false 5 0 0 0 0)

/-- `csZeroStock` after the admin deactivates product 1. -/
def csInactive : ContractState := execOp csZeroStock (.deactivateProduct 1 1)

/-- `csProd` after buyer 2 buys 2 individual boxes for 10 wei: order 1 is
`Paid` with `paid = 10`, individual stock drops to 3. -/
def csPaid : ContractState := execOp csProd (.buy 2 10 0 1 false 2 "dlv")

/-- `csPaid` after the admin marks order 1 out for delivery and submits proof:
order 1 is `PendingConfirmation`. -/
def csPending : ContractState :=
  execOp (execOp csPaid (.markOutForDelivery 1 0 1 "DHL")) (.submitProof 1 0 1 "proof")

/-- Account 3 is made a delivery man, then the owner makes it an admin. -/
def csRoleBoth : ContractState :=
  execOp (execOp csInit (.addDeliveryMan 1 3)) (.addAdmin 1 3)

/-- Admin 1 adds a product under the caller-chosen id 42 on a fresh contract. -/
def csProd42 : ContractState :=
  execOp csInit (.addProduct 1 42 "box" "blind box" 0 true false 5 5 0 0 0)

/-- `csPending` after buyer 2 opens two full-refund tickets (ids 1 and 2),
each for the full 10 wei of order 1. -/
def drTickets : ContractState :=
  execOp (execOp csPending (.openRefund 2 1 RefundType.Full 10))
    (.openRefund 2 1 RefundType.Full 10)

/-- `drTickets` after the admin approves both tickets. -/
def drApproved : ContractState :=
  execOp (execOp drTickets (.approveRefund 1 1)) (.approveRefund 1 2)

/-- `drApproved` after the admin pays ticket 1 (payout succeeds): order 1 is
`Refunded`, ticket 1 is `Paid`, 10 wei disbursed to buyer 2. -/
def drPaid1 : ContractState := execOp drApproved (.payRefund true 1 1)

/-- Post-state of the first buy of the monotone-order-id witness. -/
def csBuy1 : ContractState := buySuccState 2 5 0 1 false 1 "a" csProd

/-- Post-state of the second buy of the monotone-order-id witness. -/
def csBuy2 : ContractState := buySuccState 2 5 0 1 false 1 "b" csBuy1

-- ---------- Helper lemmas ----------

/-- Inversion of a successful `buy`: all guards passed and the result is the
explicit success state with the freshly allocated order id. -/
theorem buy_ok_elim (sender value now productId : Nat) (isSet : Bool) (qty : Nat)
    (deliveryId : String) (s s' : ContractState) (oid : Nat)
    (h : buy sender value now productId isSet qty deliveryId s = .ok (s', oid)) :
    qty ≠ 0 ∧ (s.products productId).id ≠ 0 ∧
    (s.products productId).status = ProductStatus.Active ∧
    modeEnabled (s.products productId) isSet = true ∧
    qty ≤ modeStock (s.products productId) isSet ∧
    unitPrice (s.products productId) isSet ≠ 0 ∧
    value = unitPrice (s.products productId) isSet * qty ∧
    s' = buySuccState sender value now productId isSet qty deliveryId s ∧
    oid = s.orderCount + 1 := by
  unfold buy at h
  split_ifs at h with h1 h2 h3 h4 h5 h6 h7 h8 h9
  all_goals cases h
  refine ⟨h1, h2, by tauto, by simpa using h4, by omega, h6, by tauto, rfl, rfl⟩

theorem buySuccState_orderCount (sender value now productId : Nat) (isSet : Bool)
    (qty : Nat) (deliveryId : String) (s : ContractState) :
    (buySuccState sender value now productId isSet qty deliveryId s).orderCount =
      s.orderCount + 1 := by
  simp [buySuccState, updateInventoryStatus, logDelivery]

theorem applyTx_orderCount {α : Type} (s : ContractState)
    (r : Except String (ContractState × α))
    (h : ∀ s' a, r = .ok (s', a) → s.orderCount ≤ s'.orderCount) :
    s.orderCount ≤ (applyTx s r).orderCount := by
  cases r with
  | ok p => exact h p.1 p.2 rfl
  | error e => exact le_refl _

theorem paywithMetamask_ok_orderCount (sender value orderId productId : Nat)
    (s s' : ContractState) (a : Unit)
    (h : paywithMetamask sender value orderId productId s = .ok (s', a)) :
    s.orderCount ≤ s'.orderCount := by
  unfold paywithMetamask at h
  split_ifs at h
  all_goals cases h
  simp only [pmSuccState, updateInventoryStatus]
  split <;> omega

set_option maxHeartbeats 2000000 in
/-- No contract call ever decreases `orderCount`. -/
theorem execOp_orderCount_mono (s : ContractState) (op : Op) :
    s.orderCount ≤ (execOp s op).orderCount := by
  cases op
  all_goals simp only [execOp]
  all_goals refine applyTx_orderCount _ _ ?_
  all_goals intro s' a h
  case paywithMetamask sender value orderId productId =>
    exact paywithMetamask_ok_orderCount sender value orderId productId s s' a h
  all_goals simp only [addAdmin, addDeliveryMan, assignRole, registerUser, updateUserProfile,
      deactivateUser, reactivateUser, addProduct, deactivateProduct, reactivateProduct,
      addToCart, addToCartV2, removeFromCart, clearCart, buy, markOutForDelivery,
      submitProof, confirmDelivery, assignDeliveryManToOrder, deliveryAddStatus,
      deliveryUpdateStatus, setDeliveryStatus, createUserOrder, updateUserOrderStatus,
      openRefund, approveRefund, payRefund, approvePartialRefund,
      approveFullRefund, claimRefund] at h
  all_goals (repeat' split at h)
  all_goals (try cases h)
  all_goals try simp [buySuccState_orderCount, updateInventoryStatus, logDelivery, payRefundFlip]
  all_goals try (split <;> omega)

/-- `orderCount` is monotone along any trace of contract calls. -/
theorem run_orderCount_mono (s : ContractState) (ops : List Op) :
    s.orderCount ≤ (run s ops).orderCount := by
  induction ops generalizing s with
  | nil => exact le_refl _
  | cons op rest ih =>
      exact le_trans (execOp_orderCount_mono s op) (ih (execOp s op))

-- ---------- Claim C1 ----------

/-- C1, amended: (a) a successful `buy` debits exactly `qty` from the
requested mode's stock, which was at least `qty` beforehand (so the `uint256`
counter never underflows); (b) whenever the requested mode's stock is below
`qty` the call reverts and the committed state — in particular every stock
counter — is unchanged; (c) the revert carries the insufficient-stock message
when the earlier guards (`qty > 0`, product exists, product active, mode
enabled) hold; when an earlier guard already fails, its own error is reported
instead, which is the correction to the claim. -/
theorem buy_stock_conservation (sender value now productId : Nat) (isSet : Bool)
    (qty : Nat) (deliveryId : String) (s : ContractState) :
    (∀ s' oid, buy sender value now productId isSet qty deliveryId s = .ok (s', oid) →
      qty ≤ modeStock (s.products productId) isSet ∧
      modeStock (s'.products productId) isSet = modeStock (s.products productId) isSet - qty) ∧
    (modeStock (s.products productId) isSet < qty →
      errOf (buy sender value now productId isSet qty deliveryId s) ≠ none ∧
      applyTx s (buy sender value now productId isSet qty deliveryId s) = s) ∧
    (qty ≠ 0 → (s.products productId).id ≠ 0 →
      (s.products productId).status = ProductStatus.Active →
      modeEnabled (s.products productId) isSet = true →
      modeStock (s.products productId) isSet < qty →
      buy sender value now productId isSet qty deliveryId s =
        .error (if isSet then "insufficient set stock" else "insufficient box stock")) := by
  refine ⟨?_, ?_, ?_⟩
  · intro s' oid h
    obtain ⟨h1, h2, h3, h4, h5, h6, h7, hs, ho⟩ :=
      buy_ok_elim sender value now productId isSet qty deliveryId s s' oid h
    subst hs
    refine ⟨h5, ?_⟩
    cases isSet <;>
      simp [buySuccState, updateInventoryStatus, logDelivery, fupd, modeStock]
  · intro hlt
    unfold buy
    split_ifs with h1 h2 h3 h4 h5 h6 h7 h8 h9 <;>
      first
      | exact ⟨by simp [errOf], by simp [applyTx]⟩
      | exact absurd hlt (by omega)
  · intro h1 h2 h3 h4 hlt
    unfold buy
    split_ifs with g1 g2 g3 g4 g5 g6 g7 g8 g9
    all_goals try rfl
    all_goals try simp_all
    all_goals omega

/-- C1 counterexample: in the reachable state `csInactive` (product 1 exists,
individual mode enabled with stock 0, then deactivated), a `buy` of one box
has requested-mode stock `0 < 1`, yet it fails with "inactive product", not
with the insufficient-stock error the claim demands. -/
theorem buy_stock_conservation_cex :
    modeStock (csInactive.products 1) false < 1 ∧
    errOf (buy 2 5 0 1 false 1 "" csInactive) = some "inactive product" ∧
    some "inactive product" ≠ some "insufficient box stock" := by
  refine ⟨by decide, by decide, by decide⟩

/-- C1 witness: buyer 2 buys 2 boxes of product 1 (stock 5) in `csProd`; the
theorem yields `2 ≤ 5` and a post-stock of `5 - 2`. -/
theorem buy_stock_conservation_witness :
    2 ≤ modeStock (csProd.products 1) false ∧
    modeStock ((buySuccState 2 10 0 1 false 2 "dlv" csProd).products 1) false =
      modeStock (csProd.products 1) false - 2 :=
  (buy_stock_conservation 2 10 0 1 false 2 "dlv" csProd).1
    (buySuccState 2 10 0 1 false 2 "dlv" csProd) (csProd.orderCount + 1) rfl

-- ---------- Claim C2 ----------

/-- C2, amended: (a) whenever the attached payment differs from
`unitPrice(mode) * qty`, `buy` reverts and the committed state is unchanged —
no order, no `orderCount` bump, no stock debit, no delivery-log entry; (b) the
revert carries the "wrong payment" message when all earlier guards hold (the
product exists, is active, mode enabled, stock sufficient, unit price nonzero
and the total does not overflow); when an earlier guard already fails, its own
error is reported instead, which is the correction to the claim. -/
theorem buy_payment_exactness (sender value now productId : Nat) (isSet : Bool)
    (qty : Nat) (deliveryId : String) (s : ContractState) :
    (value ≠ unitPrice (s.products productId) isSet * qty →
      errOf (buy sender value now productId isSet qty deliveryId s) ≠ none ∧
      applyTx s (buy sender value now productId isSet qty deliveryId s) = s) ∧
    (qty ≠ 0 → (s.products productId).id ≠ 0 →
      (s.products productId).status = ProductStatus.Active →
      modeEnabled (s.products productId) isSet = true →
      ¬(modeStock (s.products productId) isSet < qty) →
      unitPrice (s.products productId) isSet ≠ 0 →
      unitPrice (s.products productId) isSet * qty < UMAX →
      value ≠ unitPrice (s.products productId) isSet * qty →
      buy sender value now productId isSet qty deliveryId s = .error "wrong payment") := by
  constructor
  · intro hne
    unfold buy
    split_ifs with h1 h2 h3 h4 h5 h6 h7 h8 h9 <;>
      first
      | exact ⟨by simp [errOf], by simp [applyTx]⟩
      | exact absurd h8 (by tauto)
  · intro h1 h2 h3 h4 h5 h6 h7 h8
    unfold buy
    split_ifs with g1 g2 g3 g4 g5 g6 g7 g8 g9
    all_goals try rfl
    all_goals try simp_all
    all_goals omega

/-- C2 counterexample: in the reachable state `csZeroStock` (product 1 active,
individual price 5, stock 0), a `buy` of one box with payment `3 ≠ 5` fails
with the insufficient-stock error, not with the wrong-payment error the claim
demands. -/
theorem buy_payment_exactness_cex :
    (3 : Nat) ≠ unitPrice (csZeroStock.products 1) false * 1 ∧
    errOf (buy 2 3 0 1 false 1 "" csZeroStock) = some "insufficient box stock" ∧
    some "insufficient box stock" ≠ some "wrong payment" := by
  refine ⟨by decide, by decide, by decide⟩

/-- C2 witness: in `csProd` (price 5, stock 5), a one-box `buy` with payment
`3 ≠ 5` reverts and commits nothing. -/
theorem buy_payment_exactness_witness :
    errOf (buy 2 3 0 1 false 1 "" csProd) ≠ none ∧
    applyTx csProd (buy 2 3 0 1 false 1 "" csProd) = csProd :=
  (buy_payment_exactness 2 3 0 1 false 1 "" csProd).1 (by decide)

-- ---------- Claim C3 ----------

/-- C3, failing trace: order 1 paid 10 wei in total, buyer 2 opened TWO
full-refund tickets while the order was `PendingConfirmation`, the admin
approved both, and paying ticket 1 succeeded (10 wei to buyer 2, ticket 1
`Paid`, order 1 `Refunded`).  The claim demands that every further payout
attempt on the same order now fails; but `payRefund` on ticket 2 of the same
order still succeeds and disburses another 10 wei — 20 wei refunded for a
10-wei order.  `payRefund` checks only the ticket's own status, never whether
the order was already refunded. -/
theorem payRefund_double_payout_bug :
    (drPaid1.orders 1).paid = 10 ∧
    (drPaid1.refunds 1).status = RefundStatus.Paid ∧
    (drPaid1.orders 1).status = OrderStatus.Refunded ∧
    payoutOf (payRefund (fun _ => true) 1 1 drApproved) = some (2, 10) ∧
    payoutOf (payRefund (fun _ => true) 1 2 drPaid1) = some (2, 10) := by
  refine ⟨by decide, by decide, by decide, by decide, by decide⟩

-- ---------- Claim C4 ----------

/-- C4, amended: role exclusivity holds at deployment and is preserved by
`assignRole` and `registerUser`; but `addAdmin` leaves the `deliveryMen`
mapping entirely untouched (and `addDeliveryMan` leaves `admins` untouched),
so — contrary to the claim — `addAdmin` on an account holding the Delivery
role does NOT clear its delivery-man flag, and the two flags can coexist. -/
theorem role_exclusivity_amended (d sender account user : Addr) (role : Role)
    (profileHash : Nat) (s : ContractState) :
    RoleExclusive (initState d) ∧
    (RoleExclusive s → RoleExclusive (applyTx s (assignRole sender account role s))) ∧
    (RoleExclusive s → RoleExclusive (applyTx s (registerUser sender user profileHash s))) ∧
    (applyTx s (addAdmin sender account s)).deliveryMen = s.deliveryMen ∧
    (applyTx s (addDeliveryMan sender account s)).admins = s.admins := by
  refine ⟨?_, ?_, ?_, ?_, ?_⟩
  · intro a _
    rfl
  · intro hex
    unfold assignRole
    split_ifs with h1 h2 h3 h4 h5 <;>
      first
      | exact hex
      | · intro a ha
          simp only [applyTx, fupd] at ha ⊢
          split_ifs at ha ⊢ <;> simp_all <;> exact hex a ha
  · intro hex
    unfold registerUser
    split_ifs <;> intro a ha <;> simpa using hex a (by simpa using ha)
  · unfold addAdmin
    split_ifs <;> rfl
  · unfold addDeliveryMan
    split_ifs <;> rfl

/-- C4 counterexample: after `addDeliveryMan(3)` by the admin and then
`addAdmin(3)` by the owner, account 3 has BOTH `admins[3] = true` and
`deliveryMen[3] = true` — the claim's exclusivity invariant is violated and
`addAdmin` did not clear the delivery flag. -/
theorem role_exclusivity_cex :
    csRoleBoth.admins 3 = true ∧ csRoleBoth.deliveryMen 3 = true := by
  refine ⟨by decide, by decide⟩

/-- C4 witness: assigning the Delivery role via `assignRole` on the fresh
contract keeps the invariant. -/
theorem role_exclusivity_witness :
    RoleExclusive (applyTx csInit (assignRole 1 3 Role.Delivery csInit)) :=
  (role_exclusivity_amended 1 1 3 3 Role.Delivery 0 csInit).2.1 (fun _ _ => rfl)

-- ---------- Claim C5 ----------

/-- C5, confirmed: a successful `payRefund` returns exactly the flipped state
`payRefundFlip` — the linked order already `Refunded` and the ticket already
`Paid` — and the external transfer oracle was consulted (and returned `true`)
at precisely that flipped state, i.e. the state flip precedes the payout call;
and whenever the call reverts (in particular when the transfer on the flipped
state fails) the committed state equals the pre-call state in every field, so
the flip is never left half-applied. -/
theorem payRefund_flip_before_transfer (transfer : ContractState → Bool)
    (sender refundId : Nat) (s : ContractState) :
    (∀ s' out, payRefund transfer sender refundId s = .ok (s', out) →
      s' = payRefundFlip refundId s ∧
      (s'.orders (s.refunds refundId).orderId).status = OrderStatus.Refunded ∧
      (s'.refunds refundId).status = RefundStatus.Paid ∧
      transfer s' = true) ∧
    (transfer (payRefundFlip refundId s) = false →
      errOf (payRefund transfer sender refundId s) ≠ none) ∧
    (∀ e, payRefund transfer sender refundId s = .error e →
      applyTx s (payRefund transfer sender refundId s) = s) := by
  refine ⟨?_, ?_, ?_⟩
  · intro s' out h
    unfold payRefund at h
    split_ifs at h with h1 h2 h3 h4 h5
    cases h
    refine ⟨rfl, ?_, ?_, ?_⟩
    · simp [payRefundFlip, fupd]
    · simp [payRefundFlip, fupd]
    · simpa using h5
  · intro hf
    unfold payRefund
    split_ifs with h1 h2 h3 h4 h5 <;> simp [errOf]
  · intro e h
    rw [h]
    rfl

/-- C5 witness: paying approved ticket 1 in `drApproved` flips order 1 to
`Refunded` and ticket 1 to `Paid` in the very state handed to the transfer. -/
theorem payRefund_flip_before_transfer_witness :
    ((payRefundFlip 1 drApproved).orders (drApproved.refunds 1).orderId).status =
      OrderStatus.Refunded ∧
    ((payRefundFlip 1 drApproved).refunds 1).status = RefundStatus.Paid ∧
    (fun _ : ContractState => true) (payRefundFlip 1 drApproved) = true := by
  have h := (payRefund_flip_before_transfer (fun _ => true) 1 1 drApproved).1
    (payRefundFlip 1 drApproved)
    ((drApproved.refunds 1).requester, (drApproved.refunds 1).amount) rfl
  exact ⟨h.2.1, h.2.2.1, h.2.2.2⟩

-- ---------- Claim C6 ----------

/-- C6, amended: `confirmDelivery` reverts and commits nothing whenever the
order's status is not `PendingConfirmation`, and `submitProof` whenever it is
not `OutForDelivery`; the revert carries the invalid-state message
"wrong state" when the caller is authorised (admin, resp. delivery-or-admin)
and the order exists — an unauthorised caller gets "admin only" /
"delivery/admin only" and a missing order gets "order not found" instead,
which is the correction to the claim; on success `confirmDelivery` moves the
order `PendingConfirmation -> Completed` and `submitProof` moves it
`OutForDelivery -> PendingConfirmation`. -/
theorem delivery_transition_legality (sender now orderId : Nat)
    (proofImage : String) (s : ContractState) :
    ((s.orders orderId).status ≠ OrderStatus.PendingConfirmation →
      errOf (confirmDelivery sender now orderId s) ≠ none ∧
      applyTx s (confirmDelivery sender now orderId s) = s) ∧
    (s.admins sender = true → (s.orders orderId).id ≠ 0 →
      (s.orders orderId).status ≠ OrderStatus.PendingConfirmation →
      confirmDelivery sender now orderId s = .error "wrong state") ∧
    (∀ s' u, confirmDelivery sender now orderId s = .ok (s', u) →
      (s.orders orderId).status = OrderStatus.PendingConfirmation ∧
      (s'.orders orderId).status = OrderStatus.Completed) ∧
    ((s.orders orderId).status ≠ OrderStatus.OutForDelivery →
      errOf (submitProof sender now orderId proofImage s) ≠ none ∧
      applyTx s (submitProof sender now orderId proofImage s) = s) ∧
    ((s.deliveryMen sender || s.admins sender) = true → (s.orders orderId).id ≠ 0 →
      (s.orders orderId).status ≠ OrderStatus.OutForDelivery →
      submitProof sender now orderId proofImage s = .error "wrong state") ∧
    (∀ s' u, submitProof sender now orderId proofImage s = .ok (s', u) →
      (s.orders orderId).status = OrderStatus.OutForDelivery ∧
      (s'.orders orderId).status = OrderStatus.PendingConfirmation) := by
  refine ⟨?_, ?_, ?_, ?_, ?_, ?_⟩
  · intro hst
    unfold confirmDelivery
    split_ifs with h1 h2 h3 <;>
      first
      | exact ⟨by simp [errOf], by simp [applyTx]⟩
      | exact absurd h3 hst
  · intro ha hid hst
    unfold confirmDelivery
    split_ifs with h1 h2 h3
    all_goals try rfl
    all_goals simp_all
  · intro s' u h
    unfold confirmDelivery at h
    split_ifs at h with h1 h2 h3
    cases h
    exact ⟨by tauto, by simp [logDelivery, fupd]⟩
  · intro hst
    unfold submitProof
    split_ifs with h1 h2 h3 <;>
      first
      | exact ⟨by simp [errOf], by simp [applyTx]⟩
      | exact absurd h3 hst
  · intro ha hid hst
    unfold submitProof
    split_ifs with h1 h2 h3
    all_goals try rfl
    all_goals simp_all
  · intro s' u h
    unfold submitProof at h
    split_ifs at h with h1 h2 h3
    cases h
    exact ⟨by tauto, by simp [logDelivery, fupd]⟩

/-- C6 counterexample: in `csPaid`, order 1 exists with status `Paid` (not
`PendingConfirmation`), yet `confirmDelivery` called by the non-admin buyer 2
fails with "admin only", not with the invalid-state error the claim demands
for every such call. -/
theorem delivery_transition_legality_cex :
    (csPaid.orders 1).id ≠ 0 ∧
    (csPaid.orders 1).status ≠ OrderStatus.PendingConfirmation ∧
    errOf (confirmDelivery 2 0 1 csPaid) = some "admin only" ∧
    some "admin only" ≠ some "wrong state" := by
  refine ⟨by decide, by decide, by decide, by decide⟩

/-- C6 witness: the admin calling `confirmDelivery` on order 1 in `csPaid`
(status `Paid`) gets exactly the invalid-state error, and the call commits
nothing. -/
theorem delivery_transition_legality_witness :
    confirmDelivery 1 0 1 csPaid = .error "wrong state" ∧
    applyTx csPaid (confirmDelivery 1 0 1 csPaid) = csPaid := by
  have h := delivery_transition_legality 1 0 1 "" csPaid
  exact ⟨h.2.1 (by decide) (by decide) (by decide), (h.1 (by decide)).2⟩

-- ---------- Claim C7 ----------

/-- C7, confirmed: `openRefund` succeeds exactly when the caller is the
order's buyer, the order is `Completed` or `PendingConfirmation`, the refund
type is not `None`, and `0 < amount <= order.paid`; on success it creates
ticket `refundCount + 1` in `Open` status carrying exactly the request's
fields; on failure nothing is committed, in particular no ticket exists. -/
theorem openRefund_spec (sender orderId : Nat) (rType : RefundType)
    (amount : Nat) (s : ContractState) :
    (isOk (openRefund sender orderId rType amount s) = true ↔
      ((s.orders orderId).buyer = sender ∧
       ((s.orders orderId).status = OrderStatus.Completed ∨
        (s.orders orderId).status = OrderStatus.PendingConfirmation) ∧
       rType ≠ RefundType.None ∧ 0 < amount ∧ amount ≤ (s.orders orderId).paid)) ∧
    (∀ s' rid, openRefund sender orderId rType amount s = .ok (s', rid) →
      rid = s.refundCount + 1 ∧
      s'.refunds rid = ⟨rid, orderId, sender, rType, amount, RefundStatus.Open⟩ ∧
      s'.refundCount = s.refundCount + 1) ∧
    (∀ e, openRefund sender orderId rType amount s = .error e →
      applyTx s (openRefund sender orderId rType amount s) = s) := by
  refine ⟨?_, ?_, ?_⟩
  · unfold openRefund
    split_ifs with h1 h2 h3 h4
    all_goals simp [isOk]
    all_goals try tauto
    all_goals omega
  · intro s' rid h
    unfold openRefund at h
    split_ifs at h with h1 h2 h3 h4
    cases h
    exact ⟨rfl, by simp [fupd], rfl⟩
  · intro e h
    rw [h]
    rfl

/-- C7 witness: in `csPending` (order 1 `PendingConfirmation`, paid 10, buyer
2), buyer 2 may open a full refund of 10 wei. -/
theorem openRefund_spec_witness :
    isOk (openRefund 2 1 RefundType.Full 10 csPending) = true :=
  (openRefund_spec 2 1 RefundType.Full 10 csPending).1.mpr
    ⟨by decide, by decide, by decide, by decide, by decide⟩

-- ---------- Claim C8 ----------

/-- C8, amended: the product id of `addProduct` is supplied by the CALLER, not
chosen by the catalog — the correction to the claim.  What the code does
guarantee: a call succeeds only when slot `id` is unused (`products[id].id ==
0`, so a product stored under a nonzero id is never overwritten), the product
is stored under exactly the caller's id with status `Active`, `productCount`
increases by one, every other slot is untouched, and re-adding an occupied
nonzero id fails with "Product exists". -/
theorem addProduct_id_amended (sender id : Nat) (name description : String)
    (priceWei : Nat) (eI eS : Bool) (iP iStk sP sStk sB : Nat) (s : ContractState) :
    (∀ s' u, addProduct sender id name description priceWei eI eS iP iStk sP sStk sB s =
        .ok (s', u) →
      (s.products id).id = 0 ∧
      s'.products id = ⟨id, name, description, priceWei, ProductStatus.Active,
        eI, eS, iP, iStk, sP, sStk, sB⟩ ∧
      s'.productCount = s.productCount + 1 ∧
      (∀ j, j ≠ id → s'.products j = s.products j)) ∧
    (s.admins sender = true → (s.products id).id ≠ 0 →
      addProduct sender id name description priceWei eI eS iP iStk sP sStk sB s =
        .error "Product exists") := by
  constructor
  · intro s' u h
    unfold addProduct at h
    split_ifs at h with h1 h2 h3
    split at h
    · exact absurd h (by simp)
    cases h
    refine ⟨by tauto, by simp [updateInventoryStatus, fupd], by simp [updateInventoryStatus], ?_⟩
    intro j hj
    simp [updateInventoryStatus, fupd, hj]
  · intro ha hid
    unfold addProduct
    split_ifs with h1 h2
    all_goals try rfl
    all_goals simp_all

/-- C8 counterexample: on the fresh contract (`productCount = 0`, so the next
sequential 1-based id would be 1), the admin's `addProduct` under the
caller-chosen id 42 succeeds: the product is stored with id 42 while slot 1
stays empty — the id is neither sequential nor chosen by the catalog. -/
theorem addProduct_id_cex :
    csInit.productCount = 0 ∧
    isOk (addProduct 1 42 "box" "blind box" 0 true false 5 5 0 0 0 csInit) = true ∧
    (csProd42.products 42).id = 42 ∧
    csProd42.productCount = 1 ∧
    (csProd42.products 1).id = 0 := by
  refine ⟨by decide, by decide, by decide, by decide, by decide⟩

/-- C8 witness: the amended theorem applied to the id-42 call on the fresh
contract. -/
theorem addProduct_id_amended_witness :
    (csInit.products 42).id = 0 ∧
    csProd42.products 42 = ⟨42, "box", "blind box", 0, ProductStatus.Active,
      true, false, 5, 5, 0, 0, 0⟩ ∧
    csProd42.productCount = csInit.productCount + 1 ∧
    csProd42.products 1 = csInit.products 1 := by
  have h := (addProduct_id_amended 1 42 "box" "blind box" 0 true false 5 5 0 0 0 csInit).1
    csProd42 () rfl
  exact ⟨h.1, h.2.1, h.2.2.1, h.2.2.2 1 (by decide)⟩

-- ---------- Claim C9 ----------

/-- C9, confirmed: a successful `buy` returns `orderCount + 1` and commits
that as the new `orderCount`; no other contract call ever decreases
`orderCount` (`execOp_orderCount_mono`), so a later successful `buy` — after
any interleaving trace of contract calls — returns a strictly greater order
id; and a reverted `buy` commits nothing, in particular it does not consume an
order id. -/
theorem buy_order_ids_monotone (sender1 value1 now1 productId1 : Nat)
    (isSet1 : Bool) (qty1 : Nat) (d1 : String) (ops : List Op)
    (sender2 value2 now2 productId2 : Nat) (isSet2 : Bool) (qty2 : Nat)
    (d2 : String) (s s1 s2 : ContractState) (id1 id2 : Nat) :
    (buy sender1 value1 now1 productId1 isSet1 qty1 d1 s = .ok (s1, id1) →
     buy sender2 value2 now2 productId2 isSet2 qty2 d2 (run s1 ops) = .ok (s2, id2) →
     id1 < id2) ∧
    (∀ e, buy sender1 value1 now1 productId1 isSet1 qty1 d1 s = .error e →
      applyTx s (buy sender1 value1 now1 productId1 isSet1 qty1 d1 s) = s) := by
  constructor
  · intro hb1 hb2
    obtain ⟨_, _, _, _, _, _, _, hs1, hid1⟩ :=
      buy_ok_elim sender1 value1 now1 productId1 isSet1 qty1 d1 s s1 id1 hb1
    obtain ⟨_, _, _, _, _, _, _, _, hid2⟩ :=
      buy_ok_elim sender2 value2 now2 productId2 isSet2 qty2 d2 (run s1 ops) s2 id2 hb2
    have hmono : s1.orderCount ≤ (run s1 ops).orderCount := run_orderCount_mono s1 ops
    have hc1 : s1.orderCount = id1 := by
      rw [hs1, buySuccState_orderCount, hid1]
    omega
  · intro e h
    rw [h]
    rfl

/-- C9 witness: two consecutive one-box buys on `csProd` return order ids 1
and then 2. -/
theorem buy_order_ids_monotone_witness :
    buy 2 5 0 1 false 1 "a" csProd = .ok (csBuy1, 1) ∧
    buy 2 5 0 1 false 1 "b" (run csBuy1 []) = .ok (csBuy2, 2) ∧ 1 < 2 :=
  ⟨rfl, rfl,
    (buy_order_ids_monotone 2 5 0 1 false 1 "a" [] 2 5 0 1 false 1 "b"
      csProd csBuy1 csBuy2 1 2).1 rfl rfl⟩

-- ---------- Claim C10 ----------

/-- C10, confirmed frame condition of a successful `buy`: the only state it
changes is the requested mode's stock counter of the bought product, that
product's cached inventory status, `orderCount`, the new order record at the
fresh id, and the delivery-log entry appended under that fresh id.  Every
other top-level component (roles, users, carts, user orders, refunds,
payments, catalog counters), every other product and its inventory status,
every other field of the bought product including the other mode's stock, and
every other order and delivery log are unchanged. -/
theorem buy_frame (sender value now productId : Nat) (isSet : Bool) (qty : Nat)
    (deliveryId : String) (s : ContractState) :
    ∀ s' oid, buy sender value now productId isSet qty deliveryId s = .ok (s', oid) →
      s'.owner = s.owner ∧ s'.admin = s.admin ∧ s'.admins = s.admins ∧
      s'.deliveryMen = s.deliveryMen ∧ s'.roles = s.roles ∧
      s'.companyName = s.companyName ∧ s'.productCount = s.productCount ∧
      s'.republicSurpriseCount = s.republicSurpriseCount ∧ s'.users = s.users ∧
      s'.carts = s.carts ∧ s'.orderDeliveryMan = s.orderDeliveryMan ∧
      s'.ordersByDeliveryMan = s.ordersByDeliveryMan ∧
      s'.nextUserOrderId = s.nextUserOrderId ∧ s'.userOrders = s.userOrders ∧
      s'.userOrdersByUser = s.userOrdersByUser ∧ s'.refundCount = s.refundCount ∧
      s'.refunds = s.refunds ∧ s'.payments = s.payments ∧
      (∀ j, j ≠ productId → s'.products j = s.products j ∧
        s'.productInventoryStatus j = s.productInventoryStatus j) ∧
      (s'.products productId).id = (s.products productId).id ∧
      (s'.products productId).name = (s.products productId).name ∧
      (s'.products productId).description = (s.products productId).description ∧
      (s'.products productId).priceWei = (s.products productId).priceWei ∧
      (s'.products productId).status = (s.products productId).status ∧
      (s'.products productId).enableIndividual = (s.products productId).enableIndividual ∧
      (s'.products productId).enableSet = (s.products productId).enableSet ∧
      (s'.products productId).individualPriceWei = (s.products productId).individualPriceWei ∧
      (s'.products productId).setPriceWei = (s.products productId).setPriceWei ∧
      (s'.products productId).setBoxes = (s.products productId).setBoxes ∧
      (if isSet then (s'.products productId).individualStock =
          (s.products productId).individualStock
       else (s'.products productId).setStock = (s.products productId).setStock) ∧
      (∀ k, k ≠ oid → s'.orders k = s.orders k ∧ s'.deliveryLogs k = s.deliveryLogs k) ∧
      oid = s.orderCount + 1 ∧ s'.orderCount = s.orderCount + 1 ∧
      s'.orders oid = ⟨oid, sender, productId, isSet, qty, value,
        OrderStatus.Paid, deliveryId, ""⟩ ∧
      s'.deliveryLogs oid = s.deliveryLogs oid ++
        [⟨OrderStatus.Paid, "ORDER_PAID", "", now, sender⟩] := by
  intro s' oid h
  obtain ⟨h1, h2, h3, h4, h5, h6, h7, hs, ho⟩ :=
    buy_ok_elim sender value now productId isSet qty deliveryId s s' oid h
  subst hs
  subst ho
  refine ⟨?_, ?_, ?_, ?_, ?_, ?_, ?_, ?_, ?_, ?_, ?_, ?_, ?_, ?_, ?_, ?_, ?_, ?_,
    ?_, ?_, ?_, ?_, ?_, ?_, ?_, ?_, ?_, ?_, ?_, ?_, ?_, ?_, ?_, ?_, ?_⟩
  all_goals try intro j hj
  all_goals try exact ⟨by simp [buySuccState, updateInventoryStatus, logDelivery, fupd, hj],
    by simp [buySuccState, updateInventoryStatus, logDelivery, fupd, hj]⟩
  all_goals try (cases isSet <;>
    simp [buySuccState, updateInventoryStatus, logDelivery, fupd])
  all_goals simp [buySuccState, updateInventoryStatus, logDelivery, fupd]

/-- C10 witness: the two-box buy that produces `csPaid` from `csProd` leaves
carts, refunds, payments and the untouched product slot 2 unchanged. -/
theorem buy_frame_witness :
    csPaid.carts = csProd.carts ∧
    csPaid.refunds = csProd.refunds ∧
    csPaid.payments = csProd.payments ∧
    csPaid.products 2 = csProd.products 2 := by
  have h := buy_frame 2 10 0 1 false 2 "dlv" csProd csPaid 1 rfl
  exact ⟨h.2.2.2.2.2.2.2.2.2.1, h.2.2.2.2.2.2.2.2.2.2.2.2.2.2.2.2.1,
    h.2.2.2.2.2.2.2.2.2.2.2.2.2.2.2.2.2.1,
    (h.2.2.2.2.2.2.2.2.2.2.2.2.2.2.2.2.2.2.1 2 (by decide)).1⟩

end RepublicSurprise
